import Mathlib

/-!
Shallow embedding of `services/ddclient/ddclient.go` (the DynDNS updater of
the velociraptor repository).  Network interactions are modelled by oracles:
each function that performs a network call takes the environment's answer as
an argument, and the reconciliation code returns the list of network calls it
issued, so that claims about "which calls happen" become statements about
these traces.
-/

namespace DDClient

/-- Go `error` values as they matter to this file: the distinguished `io.EOF`
sentinel versus any other error (carried as a message). -/
inductive GoError where
  | ioEOF
  | err (msg : String)
deriving DecidableEq, Repr

/-- Configuration message `DynDNSConfig` (fields read by ddclient.go). -/
structure DynDns where
  DdnsUsername : String
  DdnsPassword : String
  CheckipUrl : String
  DnsServer : String
  Frequency : Nat
deriving DecidableEq, Repr

/-- Configuration message `FrontendConfig` (fields read by ddclient.go).
`DynDns = none` models a nil `DynDns` pointer. -/
structure Frontend where
  Hostname : String
  DynDns : Option DynDns
deriving DecidableEq, Repr

/-- Top-level `Config` message; `Frontend = none` models a nil pointer. -/
structure Config where
  Frontend : Option Frontend
deriving DecidableEq, Repr

/-- Package-level variable `ddns_service = "domains.google.com"`. -/
def ddns_service : String := "domains.google.com"

/-- The `DynDNSService` struct. -/
structure DynDNSService where
  config_obj : Config
  external_ip_url : String
  dns_server : String
deriving DecidableEq, Repr

/-- Oracle answer for the `http.Get(self.external_ip_url)` call in
`GetExternalIp`: either the transport fails, or a body is obtained together
with the error `ioutil.ReadAll` finished with (`none` for a clean read). -/
inductive HttpGetResult where
  | transportErr (e : GoError)
  | ok (body : String) (readErr : Option GoError)
deriving DecidableEq, Repr

/-- Model of Go `strings.TrimSpace`: removes leading and trailing whitespace
characters from the string. -/
def TrimSpace (s : String) : String :=
  ⟨((s.data.dropWhile Char.isWhitespace).reverse.dropWhile
      Char.isWhitespace).reverse⟩

/-- `GetExternalIp` (ddclient.go lines 151-165), as a function of the oracle
answer for its single HTTP GET.  On transport failure it returns the literal
format string `"Unable to determine external IP: %v "` (the `%v` is never
interpolated in the source) together with the error.  Otherwise it trims the
body; a read error equal to `io.EOF` is treated as success. -/
def GetExternalIp (response : HttpGetResult) : String × Option GoError :=
  match response with
  | .transportErr e => ("Unable to determine external IP: %v ", some e)
  | .ok body readErr =>
    let result := TrimSpace body
    match readErr with
    | some e => if e = GoError.ioEOF then (result, none) else (result, some e)
    | none => (result, none)

/-- `GetCurrentDDNSIp` (lines 172-186) as a function of the resolver's answer
for `r.LookupHost`.  The Go function returns `(nil, err)` on failure (modelled
as `(none, some err)`) and the resolved list unchanged on success. -/
def GetCurrentDDNSIp (lookup : Except GoError (List String)) :
    Option (List String) × Option GoError :=
  match lookup with
  | .error e => (none, some e)
  | .ok ips => (some ips, none)

/-- The HTTP request built by `UpdateDDNSRecord` (lines 199-204): an HTTP GET
with an explicitly empty User-Agent header and Basic Authentication. -/
structure Request where
  method : String
  url : String
  userAgent : String
  basicAuthUser : String
  basicAuthPw : String
deriving DecidableEq, Repr

/-- `req, _ := http.NewRequest("GET", url, nil)` followed by
`req.Header.Set("User-Agent", "")` and `req.SetBasicAuth(user, pw)`. -/
def updateRequest (url user pw : String) : Request :=
  { method := "GET", url := url, userAgent := "",
    basicAuthUser := user, basicAuthPw := pw }

/-- Oracle answer for `UpdateDDNSRecord`'s HTTP exchange: request
construction may fail, the transport may fail, or a response with some status
code and body arrives (whose read may itself fail). -/
inductive UpdateOutcome where
  | reqErr (e : GoError)
  | transportErr (e : GoError)
  | ok (status : Nat) (body : String) (readErr : Option GoError)
deriving DecidableEq, Repr

/-- `UpdateDDNSRecord` (lines 188-220) as a function of the oracle answer:
error from request construction, transport, or body read is returned; after a
successful body read it returns nil no matter the status code. -/
def UpdateDDNSRecord (outcome : UpdateOutcome) : Option GoError :=
  match outcome with
  | .reqErr e => some e
  | .transportErr e => some e
  | .ok _ _ (some e) => some e
  | .ok _ _ none => none

/-- The update URL built at lines 62-66:
`fmt.Sprintf("https://%v/nic/update?hostname=%v&myip=%v", ddns_service,
ddns_hostname, externalIP)`; `%v` on strings interpolates verbatim. -/
def reqstr (ddns_hostname externalIP : String) : String :=
  "https://" ++ ddns_service ++ "/nic/update?hostname=" ++ ddns_hostname ++
    "&myip=" ++ externalIP

/-- A record of one outbound network call made by the service. -/
inductive NetCall where
  | httpGet (url : String)
  | dnsLookup (server : String) (fqdn : String)
  | updateCall (req : Request)
deriving DecidableEq, Repr

/-- True exactly for the authenticated provider-update call. -/
def isUpdateCall : NetCall → Bool
  | .updateCall _ => true
  | _ => false

/-- Oracle answers consumed by one reconciliation cycle (`updateIP`). -/
structure CycleEnv where
  checkip : HttpGetResult
  resolve : Except GoError (List String)
  update : UpdateOutcome
deriving Repr

/-- `updateIP` (lines 32-78), returning the list of network calls the cycle
issues.  Mirrors the source order: nil guard, `GetExternalIp` (abort on
error), `GetCurrentDDNSIp` (abort on error), linear scan comparing each
resolved address to the external IP (return on first match), otherwise one
`UpdateDDNSRecord` call whose error is only logged. -/
def updateIP (self : DynDNSService) (config_obj : Config) (env : CycleEnv) :
    List NetCall :=
  match config_obj.Frontend with
  | none => []
  | some fe =>
    match fe.DynDns with
    | none => []
    | some dd =>
      let checkCall := NetCall.httpGet self.external_ip_url
      match GetExternalIp env.checkip with
      | (_, some _) => [checkCall]
      | (externalIP, none) =>
        let ddns_hostname := fe.Hostname
        let dnsCall := NetCall.dnsLookup self.dns_server ddns_hostname
        match GetCurrentDDNSIp env.resolve with
        | (_, some _) => [checkCall, dnsCall]
        | (hostnameIPs, none) =>
          if (hostnameIPs.getD []).contains externalIP then
            [checkCall, dnsCall]
          else
            [checkCall, dnsCall,
              NetCall.updateCall (updateRequest
                (reqstr ddns_hostname externalIP)
                dd.DdnsUsername dd.DdnsPassword)]

/-- `min_update_wait := config_obj.Frontend.DynDns.Frequency; if
min_update_wait == 0 { min_update_wait = 60 }` (lines 91-94): the effective
inter-cycle wait in seconds. -/
def min_update_wait (frequency : Nat) : Nat :=
  if frequency = 0 then 60 else frequency

/-- One observation at the loop's `select`: either `ctx.Done()` fires
(cancellation) or the `time.After` timer fires first, with the oracle answers
for the cycle that then runs. -/
inductive LoopEvent where
  | cancelled
  | tick (env : CycleEnv)
deriving Repr

/-- The `for { select ... } }` loop of `Start` (lines 99-110) over a finite
prefix of observed events: cancellation returns immediately; a timer tick
runs one `updateIP` cycle and loops. -/
def StartLoop (self : DynDNSService) (config_obj : Config) :
    List LoopEvent → List NetCall
  | [] => []
  | .cancelled :: _ => []
  | .tick env :: rest =>
    updateIP self config_obj env ++ StartLoop self config_obj rest

/-- `Start` (lines 80-111): nil guard, then one immediate `updateIP` before
entering the wait loop. -/
def Start (self : DynDNSService) (config_obj : Config)
    (first_env : CycleEnv) (events : List LoopEvent) : List NetCall :=
  match config_obj.Frontend with
  | none => []
  | some fe =>
    match fe.DynDns with
    | none => []
    | some _ =>
      updateIP self config_obj first_env ++ StartLoop self config_obj events

/-- `StartDynDNSService` (lines 113-149).  Returns the service the goroutine
would run (`none` when the guard short-circuits and nothing is started) and
the function's `error` result, which is always nil. -/
def StartDynDNSService (config_obj : Config) :
    Option DynDNSService × Option GoError :=
  match config_obj.Frontend with
  | none => (none, none)
  | some fe =>
    match fe.DynDns with
    | none => (none, none)
    | some dd =>
      if dd.DdnsUsername == "" || fe.Hostname == "" then
        (none, none)
      else
        let external_ip_url :=
          if dd.CheckipUrl == "" then "https://domains.google.com/checkip"
          else dd.CheckipUrl
        let dns_server :=
          if dd.DnsServer == "" then "8.8.8.8:53" else dd.DnsServer
        (some { config_obj := config_obj, external_ip_url := external_ip_url,
                dns_server := dns_server }, none)

/-- Network calls performed by whatever `StartDynDNSService` started: nothing
when no goroutine was launched, otherwise the trace of `Start`. -/
def StartedServiceCalls (started : Option DynDNSService) (config_obj : Config)
    (first_env : CycleEnv) (events : List LoopEvent) : List NetCall :=
  match started with
  | none => []
  | some svc => Start svc config_obj first_env events

/-- Characters that can occur in the textual form of an IPv4 or IPv6 address:
decimal digits, dot, colon, and hexadecimal letters. -/
def ipTextChar (c : Char) : Bool :=
  c.isDigit || c == '.' || c == ':' ||
    (97 ≤ c.toNat && c.toNat ≤ 102) || (65 ≤ c.toNat && c.toNat ≤ 70)

/-! Concrete fixtures used by the witness theorems. -/

/-- A fully populated `DynDNSConfig`. -/
def dd1 : DynDns :=
  { DdnsUsername := "user", DdnsPassword := "pw", CheckipUrl := "",
    DnsServer := "", Frequency := 0 }

/-- A frontend configuration carrying `dd1`. -/
def fe1 : Frontend := { Hostname := "host.example.com", DynDns := some dd1 }

/-- A complete configuration. -/
def cfg1 : Config := { Frontend := some fe1 }

/-- The service `StartDynDNSService` builds from `cfg1` (defaults filled). -/
def svc1 : DynDNSService :=
  { config_obj := cfg1,
    external_ip_url := "https://domains.google.com/checkip",
    dns_server := "8.8.8.8:53" }

/-- A successful provider response. -/
def okUpdate : UpdateOutcome := .ok 200 "good" none

/-- Cycle oracle: external IP `203.0.113.9` (with trailing newline in the
body), resolved set `["203.0.113.5"]` — an update is required. -/
def envUpdate : CycleEnv :=
  { checkip := .ok "203.0.113.9\n" none,
    resolve := .ok ["203.0.113.5"], update := okUpdate }

/-- Cycle oracle where the resolved set already contains the external IP. -/
def envMatch : CycleEnv :=
  { checkip := .ok "203.0.113.9\n" none,
    resolve := .ok ["203.0.113.9"], update := okUpdate }

/-- Cycle oracle where the check-IP HTTP GET fails at the transport. -/
def envGetFail : CycleEnv :=
  { checkip := .transportErr (.err "down"),
    resolve := .ok [], update := okUpdate }

/-- Cycle oracle where DNS resolution fails. -/
def envResolveFail : CycleEnv :=
  { checkip := .ok "203.0.113.9" none,
    resolve := .error (.err "nxdomain"), update := okUpdate }

/-- A `DynDNSConfig` whose password is absent (empty string). -/
def ddNoPw : DynDns :=
  { DdnsUsername := "user", DdnsPassword := "", CheckipUrl := "",
    DnsServer := "", Frequency := 0 }

/-- A configuration with username and hostname present but no password. -/
def cfgNoPw : Config :=
  { Frontend := some { Hostname := "host.example.com",
                       DynDns := some ddNoPw } }

/-- A configuration whose hostname is absent (empty string). -/
def cfgNoHost : Config :=
  { Frontend := some { Hostname := "", DynDns := some dd1 } }

/-- C1 counterexample: a configuration whose update password is absent but
whose username and hostname are present does start the service — the guard at
lines 118-123 never inspects `DdnsPassword` — and the started service issues
network calls. -/
theorem C1_counterexample :
    ddNoPw.DdnsPassword = "" ∧
    (StartDynDNSService cfgNoPw).1.isSome = true ∧
    StartedServiceCalls (StartDynDNSService cfgNoPw).1 cfgNoPw envMatch []
      ≠ [] := by
  refine ⟨rfl, rfl, ?_⟩
  decide

/-- C1 (amended): if the frontend or DynDns block is absent, or the hostname
or the username is empty, `StartDynDNSService` returns a nil error without
starting anything, and zero network calls are performed; the password is not
part of the guard. -/
theorem C1_no_start (config_obj : Config)
    (h : config_obj.Frontend = none ∨
      ∃ fe, config_obj.Frontend = some fe ∧
        (fe.DynDns = none ∨ fe.Hostname = "" ∨
          ∃ dd, fe.DynDns = some dd ∧ dd.DdnsUsername = "")) :
    StartDynDNSService config_obj = (none, none) ∧
    ∀ (first_env : CycleEnv) (events : List LoopEvent),
      StartedServiceCalls (StartDynDNSService config_obj).1 config_obj
        first_env events = [] := by
  have h1 : StartDynDNSService config_obj = (none, none) := by
    rcases h with h | ⟨fe, hfe, h⟩
    · simp [StartDynDNSService, h]
    · rcases h with h | h | ⟨dd, hdd, h⟩
      · simp [StartDynDNSService, hfe, h]
      · cases hdyn : fe.DynDns with
        | none => simp [StartDynDNSService, hfe, hdyn]
        | some dd => simp [StartDynDNSService, hfe, hdyn, h]
      · simp [StartDynDNSService, hfe, hdd, h]
  refine ⟨h1, fun first_env events => ?_⟩
  rw [h1]
  rfl

/-- C1 witness: the amended statement applied to the configuration with an
empty hostname. -/
theorem C1_no_start_witness :
    StartDynDNSService cfgNoHost = (none, none) ∧
    StartedServiceCalls (StartDynDNSService cfgNoHost).1 cfgNoHost
      envMatch [] = [] :=
  ⟨(C1_no_start cfgNoHost (Or.inr ⟨_, rfl, Or.inr (Or.inl rfl)⟩)).1,
   (C1_no_start cfgNoHost (Or.inr ⟨_, rfl, Or.inr (Or.inl rfl)⟩)).2
     envMatch []⟩

/-- C2: when the discovered external IP differs from every resolved address,
the cycle issues exactly one update call — an authenticated GET whose URL is
exactly `https://domains.google.com/nic/update?hostname=<hostname>&myip=<ip>`
with hostname and IP concatenated verbatim, carrying Basic Auth from the
configured credentials and an empty User-Agent. -/
theorem C2_single_update_call (self : DynDNSService) (config_obj : Config)
    (fe : Frontend) (dd : DynDns) (env : CycleEnv)
    (externalIP : String) (ips : List String)
    (hfe : config_obj.Frontend = some fe) (hdd : fe.DynDns = some dd)
    (hget : GetExternalIp env.checkip = (externalIP, none))
    (hres : env.resolve = Except.ok ips)
    (hmem : ips.contains externalIP = false) :
    (updateIP self config_obj env).filter isUpdateCall =
      [NetCall.updateCall
        { method := "GET",
          url := "https://domains.google.com/nic/update?hostname=" ++
            fe.Hostname ++ "&myip=" ++ externalIP,
          userAgent := "",
          basicAuthUser := dd.DdnsUsername,
          basicAuthPw := dd.DdnsPassword }] := by
  have hurl : reqstr fe.Hostname externalIP =
      "https://domains.google.com/nic/update?hostname=" ++ fe.Hostname ++
        "&myip=" ++ externalIP := rfl
  have hmem' : ¬ externalIP ∈ ips := by simpa using hmem
  simp [updateIP, hfe, hdd, hget, GetCurrentDDNSIp, hres, hmem', hurl,
    updateRequest, isUpdateCall, List.filter]

/-- C2 witness: the update cycle on the concrete fixture issues exactly the
expected authenticated update call. -/
theorem C2_single_update_call_witness :
    (updateIP svc1 cfg1 envUpdate).filter isUpdateCall =
      [NetCall.updateCall
        { method := "GET",
          url := "https://domains.google.com/nic/update?hostname=" ++
            fe1.Hostname ++ "&myip=" ++ "203.0.113.9",
          userAgent := "",
          basicAuthUser := dd1.DdnsUsername,
          basicAuthPw := dd1.DdnsPassword }] :=
  C2_single_update_call svc1 cfg1 fe1 dd1 envUpdate "203.0.113.9"
    ["203.0.113.5"] rfl rfl (by decide) rfl (by decide)

/-- C3: when the discovered external IP equals some element of the resolved
list, the cycle's whole trace is the two lookups — no update call, no further
effect. -/
theorem C3_no_update_on_match (self : DynDNSService) (config_obj : Config)
    (fe : Frontend) (dd : DynDns) (env : CycleEnv)
    (externalIP : String) (ips : List String)
    (hfe : config_obj.Frontend = some fe) (hdd : fe.DynDns = some dd)
    (hget : GetExternalIp env.checkip = (externalIP, none))
    (hres : env.resolve = Except.ok ips)
    (hmem : ips.contains externalIP = true) :
    updateIP self config_obj env =
      [NetCall.httpGet self.external_ip_url,
       NetCall.dnsLookup self.dns_server fe.Hostname] := by
  have hmem' : externalIP ∈ ips := by simpa using hmem
  simp [updateIP, hfe, hdd, hget, GetCurrentDDNSIp, hres, hmem']

/-- C3 witness: on the fixture whose resolved set contains the external IP,
the cycle performs only the two lookups. -/
theorem C3_no_update_on_match_witness :
    updateIP svc1 cfg1 envMatch =
      [NetCall.httpGet svc1.external_ip_url,
       NetCall.dnsLookup svc1.dns_server fe1.Hostname] :=
  C3_no_update_on_match svc1 cfg1 fe1 dd1 envMatch "203.0.113.9"
    ["203.0.113.9"] rfl rfl (by decide) rfl (by decide)

/-- C4 counterexample: a configured frequency of 1 second gives an effective
wait of 1 second, below the claimed 60-second floor — lines 91-94 only
replace the value 0 by 60. -/
theorem C4_counterexample :
    min_update_wait 1 = 1 ∧ ¬ 60 ≤ min_update_wait 1 := by decide

/-- C4 (amended): the effective wait is 60 seconds when the configured
frequency is 0 and is exactly the configured value otherwise, so it reaches
the 60-second floor only when the configured value is 0 or itself at least
60. -/
theorem C4_effective_wait (f : Nat) :
    min_update_wait 0 = 60 ∧
    (f ≠ 0 → min_update_wait f = f) ∧
    (60 ≤ min_update_wait f ↔ (f = 0 ∨ 60 ≤ f)) := by
  refine ⟨rfl, fun h => by simp [min_update_wait, h], ?_⟩
  by_cases h : f = 0
  · subst h; simp [min_update_wait]
  · simp [min_update_wait, h]

/-- C4 witness: the amended statement applied at frequency 61. -/
theorem C4_effective_wait_witness : min_update_wait 61 = 61 :=
  (C4_effective_wait 61).2.1 (by decide)

/-- C5: for every body obtained, the returned IP is the body with leading and
trailing whitespace trimmed; a read that ends with exactly `io.EOF` returns
the trimmed content with nil error, while any other read error is returned to
the caller. -/
theorem C5_trim_and_eof :
    (∀ body : String,
      GetExternalIp (.ok body none) = (TrimSpace body, none)) ∧
    (∀ body : String,
      GetExternalIp (.ok body (some GoError.ioEOF)) =
        (TrimSpace body, none)) ∧
    (∀ (body : String) (e : GoError), e ≠ GoError.ioEOF →
      GetExternalIp (.ok body (some e)) = (TrimSpace body, some e)) := by
  refine ⟨fun body => rfl, fun body => rfl, fun body e he => ?_⟩
  simp [GetExternalIp, he]

/-- C5 witness: a non-EOF read error is passed through together with the
trimmed partial content. -/
theorem C5_trim_and_eof_witness :
    GetExternalIp (.ok " 1.2.3.4\n" (some (GoError.err "reset"))) =
      (TrimSpace " 1.2.3.4\n", some (GoError.err "reset")) :=
  C5_trim_and_eof.2.2 " 1.2.3.4\n" (GoError.err "reset") (by decide)

/-- C6: `UpdateDDNSRecord` returns a non-nil error exactly when request
construction, the transport call, or the body read fails; any response whose
body reads cleanly yields nil regardless of its HTTP status code. -/
theorem C6_error_iff :
    (∀ outcome : UpdateOutcome,
      UpdateDDNSRecord outcome = none ↔
        ∃ status body, outcome = UpdateOutcome.ok status body none) ∧
    (∀ (status : Nat) (body : String),
      UpdateDDNSRecord (UpdateOutcome.ok status body none) = none) := by
  refine ⟨fun outcome => ?_, fun status body => rfl⟩
  cases outcome with
  | reqErr e => simp [UpdateDDNSRecord]
  | transportErr e => simp [UpdateDDNSRecord]
  | ok status body readErr =>
    cases readErr with
    | none => exact ⟨fun _ => ⟨status, body, rfl⟩, fun _ => rfl⟩
    | some e => simp [UpdateDDNSRecord]

/-- C7: a discovery error ends the cycle after the single HTTP GET, a
resolution error ends it after the two lookups (no update attempted), the
update call's outcome never changes the cycle's behaviour, and the loop runs
the next cycle after any tick regardless of what the previous cycle's
environment was — errors never escape `updateIP`, whose return carries no
error at all. -/
theorem C7_errors_absorbed (self : DynDNSService) (config_obj : Config)
    (fe : Frontend) (dd : DynDns)
    (hfe : config_obj.Frontend = some fe) (hdd : fe.DynDns = some dd) :
    (∀ (env : CycleEnv) (s : String) (e : GoError),
      GetExternalIp env.checkip = (s, some e) →
      updateIP self config_obj env =
        [NetCall.httpGet self.external_ip_url]) ∧
    (∀ (env : CycleEnv) (externalIP : String) (e : GoError),
      GetExternalIp env.checkip = (externalIP, none) →
      env.resolve = Except.error e →
      updateIP self config_obj env =
        [NetCall.httpGet self.external_ip_url,
         NetCall.dnsLookup self.dns_server fe.Hostname]) ∧
    (∀ (env : CycleEnv) (outcome : UpdateOutcome),
      updateIP self config_obj
        { checkip := env.checkip, resolve := env.resolve,
          update := outcome } =
        updateIP self config_obj env) ∧
    (∀ (env : CycleEnv) (rest : List LoopEvent),
      StartLoop self config_obj (LoopEvent.tick env :: rest) =
        updateIP self config_obj env ++ StartLoop self config_obj rest) := by
  refine ⟨fun env s e hget => ?_, fun env externalIP e hget hres => ?_,
    fun env outcome => rfl, fun env rest => rfl⟩
  · simp [updateIP, hfe, hdd, hget]
  · simp [updateIP, hfe, hdd, hget, GetCurrentDDNSIp, hres]

/-- C7 witness: on the fixtures, a failed discovery stops after one call and
a failed resolution stops after two, with no update call. -/
theorem C7_errors_absorbed_witness :
    updateIP svc1 cfg1 envGetFail =
      [NetCall.httpGet svc1.external_ip_url] ∧
    updateIP svc1 cfg1 envResolveFail =
      [NetCall.httpGet svc1.external_ip_url,
       NetCall.dnsLookup svc1.dns_server fe1.Hostname] :=
  ⟨(C7_errors_absorbed svc1 cfg1 fe1 dd1 rfl rfl).1 envGetFail
      "Unable to determine external IP: %v " (GoError.err "down") rfl,
   (C7_errors_absorbed svc1 cfg1 fe1 dd1 rfl rfl).2.1 envResolveFail
      "203.0.113.9" (GoError.err "nxdomain") (by decide) rfl⟩

/-- C8: when the configuration passes the nil guard, `Start` runs one cycle
immediately before entering the wait loop, each loop iteration observes
either a timer tick (running one cycle) or cancellation, and a cancellation
observed at a wait point ends the loop with no further network calls. -/
theorem C8_immediate_then_wait (self : DynDNSService) (config_obj : Config)
    (fe : Frontend) (dd : DynDns)
    (hfe : config_obj.Frontend = some fe) (hdd : fe.DynDns = some dd) :
    (∀ (first_env : CycleEnv) (events : List LoopEvent),
      Start self config_obj first_env events =
        updateIP self config_obj first_env ++
          StartLoop self config_obj events) ∧
    (∀ rest : List LoopEvent,
      StartLoop self config_obj (LoopEvent.cancelled :: rest) = []) := by
  refine ⟨fun first_env events => ?_, fun rest => rfl⟩
  simp [Start, hfe, hdd]

/-- C8 witness: with the concrete fixture, the first cycle runs before the
loop and a cancellation event yields no further calls. -/
theorem C8_immediate_then_wait_witness :
    Start svc1 cfg1 envMatch [LoopEvent.cancelled] =
      updateIP svc1 cfg1 envMatch ++
        StartLoop svc1 cfg1 [LoopEvent.cancelled] ∧
    StartLoop svc1 cfg1 [LoopEvent.cancelled] = [] :=
  ⟨(C8_immediate_then_wait svc1 cfg1 fe1 dd1 rfl rfl).1 envMatch
      [LoopEvent.cancelled],
   (C8_immediate_then_wait svc1 cfg1 fe1 dd1 rfl rfl).2 []⟩

/-- C9: a successful resolution returns the resolver's list unchanged (same
elements, same order, no de-duplication or sorting), and a failed resolution
returns the nil list together with the resolver's error unchanged. -/
theorem C9_resolver_passthrough :
    (∀ ips : List String,
      GetCurrentDDNSIp (Except.ok ips) = (some ips, none)) ∧
    (∀ e : GoError, GetCurrentDDNSIp (Except.error e) = (none, some e)) :=
  ⟨fun _ => rfl, fun _ => rfl⟩

/-- C10: on a transport failure of the check-IP GET, `GetExternalIp` returns
the error together with the literal string
`"Unable to determine external IP: %v "`, which is non-empty and is not the
textual form of any IP address (it contains characters outside the IP
alphabet of digits, dots, colons and hex letters). -/
theorem C10_transport_failure_string :
    (∀ e : GoError,
      GetExternalIp (HttpGetResult.transportErr e) =
        ("Unable to determine external IP: %v ", some e)) ∧
    "Unable to determine external IP: %v " ≠ "" ∧
    ("Unable to determine external IP: %v ").data.all ipTextChar = false := by
  refine ⟨fun e => rfl, by decide, by decide⟩

end DDClient
